import Mathlib

/-!
Verification of the apollo-air1-exporter repository.

The development shallowly embeds the Rust sources:
* `src/aqi.rs` — the EPA AQI engine: breakpoint tables, truncation, the
  piecewise-linear sub-index lookup and the overall-AQI fold.
* `src/apollo.rs` — the sensor probe (`get_status`, with HTTP abstracted as a
  per-channel fetch function) and `extract_unit`.
* `src/metrics.rs` — the metrics store: label-indexed gauge vectors with
  upsert/remove, `update_device` / `update_aqi` and the stale `aqi_info`
  retraction driven by `previous_aqi_state`.

`f64` values are modelled as rationals (`ℚ`): every numeric literal in the
tables is an exact decimal, `f64::floor` / `f64::round` become `Int.floor`
and round-half-away-from-zero on `ℚ`, and saturating `as u16` / truncating
`as i64` casts are spelled out explicitly.
-/

/-- The `AqiCategory` enum of `src/aqi.rs`. -/
inductive AqiCategory where
  | Good
  | Moderate
  | UnhealthyForSensitiveGroups
  | Unhealthy
  | VeryUnhealthy
  | Hazardous
deriving DecidableEq, Repr

/-- `AqiCategory::as_str` of `src/aqi.rs`. -/
def AqiCategory.as_str : AqiCategory → String
  | AqiCategory.Good => "Good"
  | AqiCategory.Moderate => "Moderate"
  | AqiCategory.UnhealthyForSensitiveGroups => "Unhealthy for Sensitive Groups"
  | AqiCategory.Unhealthy => "Unhealthy"
  | AqiCategory.VeryUnhealthy => "Very Unhealthy"
  | AqiCategory.Hazardous => "Hazardous"

/-- Rust saturating-truncating cast `f64 as u16`: truncation toward zero,
negative values clamp to `0`, values above `65535` clamp to `65535`.
For the nonnegative rationals in use, toward-zero truncation is the floor. -/
def u16cast (q : ℚ) : ℕ :=
  min (Int.toNat ⌊q⌋) 65535

/-- `AqiCategory::from_aqi` of `src/aqi.rs`: `match aqi as u16` over the
integer ranges `0..=50`, `51..=100`, `101..=150`, `151..=200`, `201..=300`,
wildcard `Hazardous`. -/
def AqiCategory.from_aqi (aqi : ℚ) : AqiCategory :=
  let n : ℕ := u16cast aqi
  if n ≤ 50 then AqiCategory.Good
  else if n ≤ 100 then AqiCategory.Moderate
  else if n ≤ 150 then AqiCategory.UnhealthyForSensitiveGroups
  else if n ≤ 200 then AqiCategory.Unhealthy
  else if n ≤ 300 then AqiCategory.VeryUnhealthy
  else AqiCategory.Hazardous

/-- The `AqiResult` struct of `src/aqi.rs`. -/
structure AqiResult where
  aqi : ℚ
  category : AqiCategory
  primary_pollutant : String
  pm25_aqi : Option ℚ
  pm10_aqi : Option ℚ
deriving DecidableEq, Repr

/-- A breakpoint table row `(bp_lo, bp_hi, i_lo, i_hi)`; the index endpoints
are `u16` in the source, hence `ℕ`. -/
abbrev Breakpoint : Type := ℚ × ℚ × ℕ × ℕ

/-- `PM25_BREAKPOINTS` of `src/aqi.rs` (2024 EPA revision). -/
def PM25_BREAKPOINTS : List Breakpoint :=
  [ (0, 9, 0, 50),
    (9.1, 35.4, 51, 100),
    (35.5, 55.4, 101, 150),
    (55.5, 125.4, 151, 200),
    (125.5, 225.4, 201, 300),
    (225.5, 325.4, 301, 500),
    (325.5, 999.9, 501, 999) ]

/-- `PM10_BREAKPOINTS` of `src/aqi.rs`. -/
def PM10_BREAKPOINTS : List Breakpoint :=
  [ (0, 54, 0, 50),
    (55, 154, 51, 100),
    (155, 254, 101, 150),
    (255, 354, 151, 200),
    (355, 424, 201, 300),
    (425, 604, 301, 500),
    (605, 999, 501, 999) ]

/-- `truncate_pm25` of `src/aqi.rs`: `(value * 10.0).floor() / 10.0`. -/
def truncate_pm25 (value : ℚ) : ℚ :=
  (⌊value * 10⌋ : ℚ) / 10

/-- `truncate_pm10` of `src/aqi.rs`: `value.floor()`. -/
def truncate_pm10 (value : ℚ) : ℚ :=
  (⌊value⌋ : ℚ)

/-- Rust `f64::round`: round to nearest, ties away from zero. -/
def rustRound (q : ℚ) : ℚ :=
  if 0 ≤ q then ((⌊q + 1/2⌋ : ℤ) : ℚ) else ((-⌊-q + 1/2⌋ : ℤ) : ℚ)

/-- The EPA interpolation `((i_hi - i_lo)/(bp_hi - bp_lo)) * (c - bp_lo) + i_lo`
from the loop body of `calculate_pollutant_aqi`. -/
def interp (bp : Breakpoint) (c : ℚ) : ℚ :=
  ((bp.2.2.2 : ℚ) - bp.2.2.1) / (bp.2.1 - bp.1) * (c - bp.1) + bp.2.2.1

/-- The `for` loop of `calculate_pollutant_aqi`: first row with
`bp_lo ≤ c ∧ c ≤ bp_hi` wins and yields the rounded interpolation. -/
def lookupBp (c : ℚ) : List Breakpoint → Option ℚ
  | [] => none
  | bp :: rest =>
    if bp.1 ≤ c ∧ c ≤ bp.2.1 then some (rustRound (interp bp c))
    else lookupBp c rest

/-- `calculate_pollutant_aqi` of `src/aqi.rs`: scan the table; if no row
matched and the concentration exceeds the last row's upper bound, saturate to
`500`; otherwise `none`.  (The source calls `.last().unwrap()`, which would
panic on an empty table; both call sites pass the 7-row tables, on which the
`getLast?` model agrees with the source.) -/
def calculate_pollutant_aqi (concentration : ℚ) (breakpoints : List Breakpoint) : Option ℚ :=
  match lookupBp concentration breakpoints with
  | some v => some v
  | none =>
    match breakpoints.getLast? with
    | some last => if last.2.1 < concentration then some 500 else none
    | none => none

/-- `calculate_aqi` of `src/aqi.rs`.  The mutable fold over
`(max_aqi, primary_pollutant)` — initialised to `(0.0, "")`, each branch
firing only on strict `aqi > max_aqi` — is made explicit as the pair `s1`
(after the PM2.5 branch) and `s2` (after the PM10 branch). -/
def calculate_aqi (pm25_ugm3 pm10_ugm3 : Option ℚ) : Option AqiResult :=
  let pm25_aqi : Option ℚ :=
    pm25_ugm3.bind fun pm25 => calculate_pollutant_aqi (truncate_pm25 pm25) PM25_BREAKPOINTS
  let pm10_aqi : Option ℚ :=
    pm10_ugm3.bind fun pm10 => calculate_pollutant_aqi (truncate_pm10 pm10) PM10_BREAKPOINTS
  let s1 : ℚ × String :=
    match pm25_aqi with
    | some a => if 0 < a then (a, "PM2.5") else (0, "")
    | none => (0, "")
  let s2 : ℚ × String :=
    match pm10_aqi with
    | some a => if s1.1 < a then (a, "PM10") else s1
    | none => s1
  if s2.2 = "" then none
  else
    some { aqi := s2.1
           category := AqiCategory.from_aqi s2.1
           primary_pollutant := s2.2
           pm25_aqi := pm25_aqi
           pm10_aqi := pm10_aqi }

/-- The category mapping exactly as the specification words it, for the
refinement comparison of claim C5: fixed integer breakpoints on the overall
AQI value — `[0,50]` Good, `[51,100]` Moderate, `[101,150]`
UnhealthyForSensitiveGroups, `[151,200]` Unhealthy, `[201,300]` VeryUnhealthy,
above 300 Hazardous. -/
def categoryBreakpointsSpec (aqi : ℚ) : AqiCategory :=
  if aqi ≤ 50 then AqiCategory.Good
  else if aqi ≤ 100 then AqiCategory.Moderate
  else if aqi ≤ 150 then AqiCategory.UnhealthyForSensitiveGroups
  else if aqi ≤ 200 then AqiCategory.Unhealthy
  else if aqi ≤ 300 then AqiCategory.VeryUnhealthy
  else AqiCategory.Hazardous

/-- The PM2.5 sub-index option computed by `calculate_aqi` from its first
argument: `pm25_ugm3.and_then(|pm25| calculate_pollutant_aqi(truncate_pm25(pm25), ...))`. -/
def pm25_subindex (pm25_ugm3 : Option ℚ) : Option ℚ :=
  pm25_ugm3.bind fun pm25 => calculate_pollutant_aqi (truncate_pm25 pm25) PM25_BREAKPOINTS

/-- The PM10 sub-index option computed by `calculate_aqi` from its second
argument. -/
def pm10_subindex (pm10_ugm3 : Option ℚ) : Option ℚ :=
  pm10_ugm3.bind fun pm10 => calculate_pollutant_aqi (truncate_pm10 pm10) PM10_BREAKPOINTS

/-! ### Embedding of `src/apollo.rs`

The per-channel HTTP request of `get_sensor` is abstracted as a function
`fetch : channel id → Option SensorData` (`Ok` becomes `some`, any transport
or parse failure becomes `none`).  Strings scanned byte-wise by the source
are modelled as `List Char`; all patterns searched for are ASCII, so a
byte-level match coincides with a character-level match. -/

/-- The `SensorData` struct: the JSON body of `GET /sensor/{id}`. -/
structure SensorData where
  id : String
  value : ℚ
  state : List Char
deriving DecidableEq, Repr

/-- The `SensorValue` struct of `src/apollo.rs`. -/
structure SensorValue where
  value : ℚ
  unit : List Char
  name : String
deriving DecidableEq, Repr

/-- The `ApolloStatus` struct; the `HashMap<String, SensorValue>` is modelled
as an association list (catalog order for `get_status`; a hash map imposes no
order and `get_status` inserts pairwise-distinct catalog keys, so the
key-value set is faithful). -/
structure ApolloStatus where
  sensors : List (String × SensorValue)
  device_name : String
deriving DecidableEq, Repr

/-- `KNOWN_SENSORS` of `src/apollo.rs`: the fixed 12-entry channel catalog. -/
def KNOWN_SENSORS : List (String × String) :=
  [ ("co2", "CO2"),
    ("sen55_temperature", "Temperature"),
    ("sen55_humidity", "Humidity"),
    ("pm__1_m_weight_concentration", "PM1.0"),
    ("pm__2_5_m_weight_concentration", "PM2.5"),
    ("pm__10_m_weight_concentration", "PM10"),
    ("sen55_voc", "VOC"),
    ("sen55_nox", "NOx"),
    ("dps310_pressure", "Pressure"),
    ("illuminance", "Illuminance"),
    ("esp_temperature", "ESP Temperature"),
    ("rssi", "WiFi RSSI") ]

/-- Rust `str::find(pat)` followed by slicing `s[pos + pat.len()..]`: the
suffix of `s` after the first occurrence of `pat`, or `none`. -/
def findSuffixAfter (pat : List Char) : List Char → Option (List Char)
  | [] => if pat.isEmpty then some [] else none
  | c :: rest =>
    if pat.isPrefixOf (c :: rest) then some ((c :: rest).drop pat.length)
    else findSuffixAfter pat rest

/-- Rust `str::contains(pat)`. -/
def containsSub (pat s : List Char) : Bool :=
  (findSuffixAfter pat s).isSome

/-- Rust `str::trim`: strip whitespace from both ends. -/
def trimChars (s : List Char) : List Char :=
  ((s.dropWhile Char.isWhitespace).reverse.dropWhile Char.isWhitespace).reverse

/-- Decimal digits of a natural number. -/
def natChars (n : ℕ) : List Char :=
  (Nat.repr n).data

/-- Decimal rendering of an integer, with leading minus sign. -/
def intChars (i : ℤ) : List Char :=
  if i < 0 then '-' :: natChars i.natAbs else natChars i.natAbs

/-- Rust `format!("{value}")` — shortest-round-trip `f64` display — modelled
for values whose shortest decimal rendering has at most one fractional
digit (every state string matched by the source carries such a value):
integral values render with no decimal point, others with one digit. -/
def fmtValue (q : ℚ) : List Char :=
  if (⌊q⌋ : ℚ) = q then intChars ⌊q⌋
  else
    (if q < 0 then ['-'] else []) ++
      natChars (Int.toNat ⌊|q|⌋) ++ '.' :: natChars (Int.toNat (⌊|q| * 10⌋ % 10))

/-- Rust `format!("{value:.1}")`: exactly one fractional digit, rounded to
nearest (ties of the decimal scaling do not occur for the modelled values). -/
def fmtValue1 (q : ℚ) : List Char :=
  (if q < 0 then ['-'] else []) ++
    natChars (Int.toNat ⌊|q| * 10 + 1/2⌋ / 10) ++
      '.' :: natChars (Int.toNat ⌊|q| * 10 + 1/2⌋ % 10)

def degC : List Char := "°C".data

def degF : List Char := "°F".data

def pctU : List Char := "%".data

def ppmU : List Char := "ppm".data

def ugm3U : List Char := "µg/m³".data

def hPaU : List Char := "hPa".data

def lxU : List Char := "lx".data

def dBmU : List Char := "dBm".data

def spaceS : List Char := " s".data

def sU : List Char := "s".data

/-- `extract_unit` of `src/apollo.rs`: find the exact rendering of the value
in the state string, then the one-decimal rendering, and return the trimmed
text after the match; otherwise fall back to the fixed ordered list of known
unit substrings by containment; otherwise the empty string. -/
def extract_unit (state : List Char) (value : ℚ) : List Char :=
  let value_str := fmtValue value
  let value_str_formatted := fmtValue1 value
  match findSuffixAfter value_str state with
  | some suffix => trimChars suffix
  | none =>
    match findSuffixAfter value_str_formatted state with
    | some suffix => trimChars suffix
    | none =>
      if containsSub degC state then degC
      else if containsSub degF state then degF
      else if containsSub pctU state then pctU
      else if containsSub ppmU state then ppmU
      else if containsSub ugm3U state then ugm3U
      else if containsSub hPaU state then hPaU
      else if containsSub lxU state then lxU
      else if containsSub dBmU state then dBmU
      else if containsSub spaceS state then sU
      else []

/-- The fallback substring list in the order the claim C7 states it, with the
unit each entry yields. -/
def unitFallbacks : List (List Char × List Char) :=
  [ (degC, degC), (degF, degF), (pctU, pctU), (ppmU, ppmU), (ugm3U, ugm3U),
    (hPaU, hPaU), (lxU, lxU), (dBmU, dBmU), (spaceS, sU) ]

/-- Unit extraction exactly as claim C7 words the algorithm: search for the
exact rendering, then the one-decimal rendering, returning the trimmed text
after the found rendering; if neither is found, test the fixed ordered
substring list by containment with first match winning; otherwise empty. -/
def extractUnitSpec (state : List Char) (value : ℚ) : List Char :=
  match findSuffixAfter (fmtValue value) state with
  | some suffix => trimChars suffix
  | none =>
    match findSuffixAfter (fmtValue1 value) state with
    | some suffix => trimChars suffix
    | none =>
      match unitFallbacks.find? (fun pr => containsSub pr.1 state) with
      | some pr => pr.2
      | none => []

/-- The sensor-collecting loop of `get_status`: every catalog channel is
attempted, each success is inserted as (value, extracted unit, display name),
each failure is skipped. -/
def probe_sensors (fetch : String → Option SensorData) : List (String × SensorValue) :=
  KNOWN_SENSORS.filterMap fun s =>
    (fetch s.1).map fun data =>
      (s.1, { value := data.value
              unit := extract_unit data.state data.value
              name := s.2 : SensorValue })

/-- `ApolloClient::get_status` of `src/apollo.rs`: try every catalog channel,
keep the successful ones, and fail iff the resulting sensor map is empty. -/
def get_status (fetch : String → Option SensorData) (device_name : String) :
    Option ApolloStatus :=
  if (probe_sensors fetch).isEmpty then none
  else some { sensors := probe_sensors fetch, device_name := device_name }

/-- A probe response exposing exactly 2 of the 12 catalog channels — the
scenario of the repository's `test_get_status`. -/
def fetchTwo : String → Option SensorData := fun id =>
  if id = "co2" then
    some { id := "sensor-co2", value := 520, state := "520 ppm".data }
  else if id = "sen55_temperature" then
    some { id := "sensor-sen55_temperature", value := 22.5, state := "22.5 °C".data }
  else none

/-! ### Embedding of `src/metrics.rs`

A Prometheus `GaugeVec` is observably a map from label tuple to current
value: `with_label_values(..).set(v)` upserts, `remove_label_values` deletes,
and `gather` renders exactly the series present.  The maps are modelled as
association lists; the two-label vectors are collapsed into one map keyed by
(metric name, device, host), the four-label `aqi_info` vector keeps its own
map, and `previous_aqi_state` is the `HashMap<(String, String), AqiState>`. -/

/-- The `AqiState` struct of `src/metrics.rs`: the tracked previous category
and primary pollutant for one device key. -/
structure AqiState where
  category : AqiCategory
  primary_pollutant : String
deriving DecidableEq, Repr

/-- The label tuple of an `aqi_info` series:
`(device, host, category, primary_pollutant)`. -/
structure InfoKey where
  device : String
  host : String
  category : String
  pollutant : String
deriving DecidableEq, Repr

/-- Upsert into an association list: replace the value at an existing key in
place, otherwise append — `with_label_values(..).set(v)`. -/
def setAssoc {α β : Type} [DecidableEq α] (k : α) (v : β) : List (α × β) → List (α × β)
  | [] => [(k, v)]
  | e :: rest => if e.1 = k then (k, v) :: rest else e :: setAssoc k v rest

/-- Delete the series with exactly the given label tuple:
`remove_label_values`. -/
def removeAssoc {α β : Type} [DecidableEq α] (k : α) (l : List (α × β)) : List (α × β) :=
  l.filter fun e => e.1 ≠ k

/-- Key lookup (`HashMap::get`). -/
def lookupA {α β : Type} [DecidableEq α] (k : α) : List (α × β) → Option β
  | [] => none
  | e :: rest => if e.1 = k then some e.2 else lookupA k rest

/-- The mutable state of the `Metrics` registry. -/
structure MetricsState where
  gauges : List ((String × String × String) × ℚ)
  aqi_info : List (InfoKey × ℚ)
  previous_aqi_state : List ((String × String) × AqiState)
deriving DecidableEq, Repr

/-- `Metrics::new`: every vector registered and empty. -/
def Metrics_new : MetricsState :=
  { gauges := [], aqi_info := [], previous_aqi_state := [] }

/-- Rust truncating cast `f64 as i64` (toward zero), used for the RSSI gauge. -/
def i64cast (q : ℚ) : ℚ :=
  if 0 ≤ q then ((⌊q⌋ : ℤ) : ℚ) else ((-⌊-q⌋ : ℤ) : ℚ)

/-- `Metrics::update_aqi` of `src/metrics.rs`: remove the previously exposed
`aqi_info` series if the category or primary pollutant changed, set the
overall and per-pollutant gauges, set the new info series to 1, and record
the new tracked state. -/
def update_aqi (device host : String) (result : AqiResult) (m : MetricsState) :
    MetricsState :=
  let key := (device, host)
  let info1 :=
    match lookupA key m.previous_aqi_state with
    | some prev =>
      if prev.category ≠ result.category ∨
          prev.primary_pollutant ≠ result.primary_pollutant then
        removeAssoc
          { device := device, host := host
            category := prev.category.as_str, pollutant := prev.primary_pollutant }
          m.aqi_info
      else m.aqi_info
    | none => m.aqi_info
  let gauges1 := setAssoc ("aqi", device, host) result.aqi m.gauges
  let gauges2 :=
    match result.pm25_aqi with
    | some v => setAssoc ("aqi_pm25", device, host) v gauges1
    | none => gauges1
  let gauges3 :=
    match result.pm10_aqi with
    | some v => setAssoc ("aqi_pm10", device, host) v gauges2
    | none => gauges2
  { gauges := gauges3
    aqi_info := setAssoc
      { device := device, host := host
        category := result.category.as_str, pollutant := result.primary_pollutant }
      1 info1
    previous_aqi_state := setAssoc key
      { category := result.category, primary_pollutant := result.primary_pollutant }
      m.previous_aqi_state }

/-- The fixed channel-id to metric-name mapping of `update_device`'s sensor
match, acting on the gauge map; an unknown id is dropped (no series set). -/
def sensorGaugeList (device host : String) (g : List ((String × String × String) × ℚ))
    (sensor_id : String) (v : ℚ) : List ((String × String × String) × ℚ) :=
  if sensor_id = "co2" then setAssoc ("co2_ppm", device, host) v g
  else if sensor_id = "pm__1_m_weight_concentration" then
    setAssoc ("pm1_0_ugm3", device, host) v g
  else if sensor_id = "pm__2_5_m_weight_concentration" then
    setAssoc ("pm2_5_ugm3", device, host) v g
  else if sensor_id = "pm__10_m_weight_concentration" then
    setAssoc ("pm10_0_ugm3", device, host) v g
  else if sensor_id = "sen55_voc" then setAssoc ("voc_index", device, host) v g
  else if sensor_id = "sen55_nox" then setAssoc ("nox_index", device, host) v g
  else if sensor_id = "sen55_temperature" then
    setAssoc ("temperature_celsius", device, host) v g
  else if sensor_id = "sen55_humidity" then
    setAssoc ("humidity_percent", device, host) v g
  else if sensor_id = "dps310_pressure" then setAssoc ("pressure_hpa", device, host) v g
  else if sensor_id = "illuminance" then setAssoc ("illuminance_lux", device, host) v g
  else if sensor_id = "esp_temperature" then
    setAssoc ("esp_temperature_celsius", device, host) v g
  else if sensor_id = "rssi" then setAssoc ("wifi_rssi_dbm", device, host) (i64cast v) g
  else g

/-- One arm of the sensor match inside `update_device`: every branch only
sets a gauge series (or, for an unknown id, nothing). -/
def updateSensorGauge (device host : String) (m : MetricsState)
    (sensor_id : String) (v : ℚ) : MetricsState :=
  { m with gauges := sensorGaugeList device host m.gauges sensor_id v }

/-- The PM capture of `update_device`'s sensor loop. -/
def collectPm (sensors : List (String × SensorValue)) : Option ℚ × Option ℚ :=
  sensors.foldl
    (fun acc s =>
      ((if s.1 = "pm__2_5_m_weight_concentration" then some s.2.value else acc.1),
       (if s.1 = "pm__10_m_weight_concentration" then some s.2.value else acc.2)))
    (none, none)

/-- `Metrics::update_device` of `src/metrics.rs`: mark the device up, fold
every sensor into its gauge, and when the PM data yields an AQI result,
update the AQI metrics. -/
def update_device (host : String) (status : ApolloStatus) (m : MetricsState) :
    MetricsState :=
  let m1 := { m with gauges := setAssoc ("device_up", status.device_name, host) 1 m.gauges }
  let m2 := status.sensors.foldl
    (fun acc s => updateSensorGauge status.device_name host acc s.1 s.2.value) m1
  let pm := collectPm status.sensors
  match calculate_aqi pm.1 pm.2 with
  | some result => update_aqi status.device_name host result m2
  | none => m2

/-- The store operations claim C2 quantifies over. -/
inductive MetricsOp where
  | updDevice (host : String) (status : ApolloStatus)
  | updAqi (device host : String) (result : AqiResult)

def applyOp (m : MetricsState) : MetricsOp → MetricsState
  | MetricsOp.updDevice host status => update_device host status m
  | MetricsOp.updAqi device host result => update_aqi device host result m

/-- Run a sequence of operations against a freshly constructed store. -/
def runOps (ops : List MetricsOp) : MetricsState :=
  ops.foldl applyOp Metrics_new

/-- The (category, pollutant) label pairs of the `aqi_info` series a render
exposes for one device key. -/
def infoPairs (l : List (InfoKey × ℚ)) (d h : String) : List (String × String) :=
  l.filterMap fun e =>
    if e.1.device = d ∧ e.1.host = h then some (e.1.category, e.1.pollutant) else none

def infoFor (m : MetricsState) (d h : String) : List (String × String) :=
  infoPairs m.aqi_info d h

/-- The label tuples of all `aqi_info` series present in a render. -/
def renderInfoKeys (m : MetricsState) : List InfoKey :=
  m.aqi_info.map Prod.fst

/-- The (category, pollutant) pair an operation computes for device key
(d, h), if any. -/
def computedPair (d h : String) : MetricsOp → Option (AqiCategory × String)
  | MetricsOp.updAqi device host result =>
    if device = d ∧ host = h then some (result.category, result.primary_pollutant)
    else none
  | MetricsOp.updDevice host status =>
    if status.device_name = d ∧ host = h then
      match calculate_aqi (collectPm status.sensors).1 (collectPm status.sensors).2 with
      | some result => some (result.category, result.primary_pollutant)
      | none => none
    else none

/-- Fold of `computedPair` over an operation sequence from a given start. -/
def lastComputedAux (d h : String) (init : Option (AqiCategory × String))
    (ops : List MetricsOp) : Option (AqiCategory × String) :=
  ops.foldl
    (fun acc op =>
      match computedPair d h op with
      | some pr => some pr
      | none => acc)
    init

/-- The most-recently-computed (category, pollutant) pair for a device key
over an operation sequence. -/
def lastComputed (ops : List MetricsOp) (d h : String) : Option (AqiCategory × String) :=
  lastComputedAux d h none ops

/-- The info-series labels a tracked state exposes. -/
def stateInfo : Option AqiState → List (String × String)
  | some s => [(s.category.as_str, s.primary_pollutant)]
  | none => []

/-- The (category, pollutant) pair a tracked state records. -/
def pairOfState (s : AqiState) : AqiCategory × String :=
  (s.category, s.primary_pollutant)

/-- A Good-category AQI result for PM2.5 (concentration 5 µg/m³ scenario). -/
def rGoodPM25 : AqiResult :=
  { aqi := 21, category := AqiCategory.Good, primary_pollutant := "PM2.5"
    pm25_aqi := some 21, pm10_aqi := none }

/-- A Moderate-category AQI result for PM2.5 (concentration 20 µg/m³
scenario). -/
def rModeratePM25 : AqiResult :=
  { aqi := 71, category := AqiCategory.Moderate, primary_pollutant := "PM2.5"
    pm25_aqi := some 71, pm10_aqi := none }

/-- Two successive AQI updates for the same device whose category changes
from Good to Moderate. -/
def opsGoodThenModerate : List MetricsOp :=
  [ MetricsOp.updAqi "Test Device" "192.168.1.100" rGoodPM25,
    MetricsOp.updAqi "Test Device" "192.168.1.100" rModeratePM25 ]

example : calculate_pollutant_aqi 5 PM25_BREAKPOINTS = some 28 := by
  norm_num [calculate_pollutant_aqi, lookupBp, PM25_BREAKPOINTS, interp, rustRound]
example : calculate_pollutant_aqi 9 PM25_BREAKPOINTS = some 50 := by
  norm_num [calculate_pollutant_aqi, lookupBp, PM25_BREAKPOINTS, interp, rustRound]
example : calculate_pollutant_aqi 35.4 PM25_BREAKPOINTS = some 100 := by
  norm_num [calculate_pollutant_aqi, lookupBp, PM25_BREAKPOINTS, interp, rustRound]
example : calculate_pollutant_aqi 100 PM10_BREAKPOINTS = some 73 := by
  norm_num [calculate_pollutant_aqi, lookupBp, PM10_BREAKPOINTS, interp, rustRound]
example : calculate_aqi none none = none := by
  norm_num [calculate_aqi]
example : (calculate_aqi (some 20) (some 30)).map AqiResult.aqi = some 71 := by
  norm_num [calculate_aqi, calculate_pollutant_aqi, lookupBp, PM25_BREAKPOINTS,
    PM10_BREAKPOINTS, interp, rustRound, truncate_pm25, truncate_pm10]
  exact ⟨_, ⟨by simp, rfl⟩, rfl⟩
example : calculate_aqi (some 0) none = none := by
  norm_num [calculate_aqi, calculate_pollutant_aqi, lookupBp, PM25_BREAKPOINTS,
    interp, rustRound, truncate_pm25, truncate_pm10]

/-! ### Arithmetic lemmas about the sub-index lookup -/

lemma interp_bounds (lo hi : ℚ) (ilo ihi : ℕ) (c : ℚ) (hlt : lo < hi)
    (hle : ilo ≤ ihi) (h1 : lo ≤ c) (h2 : c ≤ hi) :
    (ilo : ℚ) ≤ interp (lo, hi, ilo, ihi) c ∧ interp (lo, hi, ilo, ihi) c ≤ (ihi : ℚ) := by
  simp only [interp]
  have hpos : (0 : ℚ) < hi - lo := by linarith
  have hcast : (ilo : ℚ) ≤ (ihi : ℚ) := by exact_mod_cast hle
  have hsl : (0 : ℚ) ≤ ((ihi : ℚ) - ilo) / (hi - lo) :=
    div_nonneg (by linarith) (le_of_lt hpos)
  constructor
  · have := mul_nonneg hsl (by linarith : (0 : ℚ) ≤ c - lo)
    linarith
  · have h3 : ((ihi : ℚ) - ilo) / (hi - lo) * (c - lo)
        ≤ ((ihi : ℚ) - ilo) / (hi - lo) * (hi - lo) :=
      mul_le_mul_of_nonneg_left (by linarith) hsl
    rw [div_mul_cancel₀ _ (ne_of_gt hpos)] at h3
    linarith

lemma rustRound_nat_bounds (a b : ℕ) (x : ℚ) (h1 : (a : ℚ) ≤ x) (h2 : x ≤ (b : ℚ)) :
    ∃ n : ℕ, rustRound x = (n : ℚ) ∧ a ≤ n ∧ n ≤ b := by
  have hx : (0 : ℚ) ≤ x := le_trans (by positivity) h1
  have hfl : 0 ≤ ⌊x + 1/2⌋ := Int.floor_nonneg.mpr (by linarith)
  refine ⟨(⌊x + 1/2⌋).toNat, ?_, ?_, ?_⟩
  · simp only [rustRound, if_pos hx]
    exact_mod_cast congrArg (fun z : ℤ => (z : ℚ)) (Int.toNat_of_nonneg hfl).symm
  · have h3 : (a : ℤ) ≤ ⌊x + 1/2⌋ := by
      rw [Int.le_floor]; push_cast; linarith
    omega
  · have h3 : ⌊x + 1/2⌋ < (b : ℤ) + 1 := by
      rw [Int.floor_lt]; push_cast; linarith
    omega

lemma lookupBp_eq_some (c v : ℚ) (bps : List Breakpoint) (h : lookupBp c bps = some v) :
    ∃ bp ∈ bps, bp.1 ≤ c ∧ c ≤ bp.2.1 ∧ v = rustRound (interp bp c) := by
  induction bps with
  | nil => simp [lookupBp] at h
  | cons bp rest ih =>
    rw [lookupBp] at h
    split at h
    next hc =>
      injection h with h
      exact ⟨bp, List.mem_cons_self bp rest, hc.1, hc.2, h.symm⟩
    next hc =>
      obtain ⟨r, hr, hr1, hr2, hr3⟩ := ih h
      exact ⟨r, List.mem_cons_of_mem _ hr, hr1, hr2, hr3⟩

lemma lookupBp_none_of_above (c : ℚ) (bps : List Breakpoint)
    (h : ∀ bp ∈ bps, bp.2.1 < c) : lookupBp c bps = none := by
  induction bps with
  | nil => rfl
  | cons bp rest ih =>
    rw [lookupBp, if_neg]
    · exact ih fun r hr => h r (List.mem_cons_of_mem _ hr)
    · intro hc
      exact absurd hc.2 (not_le.mpr (h bp (List.mem_cons_self bp rest)))

/-- Every row of the PM2.5 table has a proper concentration interval and
index endpoints `i_lo ≤ i_hi ≤ 999`. -/
lemma pm25_rows : ∀ bp ∈ PM25_BREAKPOINTS,
    bp.1 < bp.2.1 ∧ bp.2.2.1 ≤ bp.2.2.2 ∧ bp.2.2.2 ≤ 999 := by
  intro bp hbp
  simp only [PM25_BREAKPOINTS, List.mem_cons, List.not_mem_nil, or_false] at hbp
  rcases hbp with h | h | h | h | h | h | h <;> subst h <;>
    refine ⟨by norm_num, by norm_num, by norm_num⟩

/-- Every row of the PM10 table has a proper concentration interval and
index endpoints `i_lo ≤ i_hi ≤ 999`. -/
lemma pm10_rows : ∀ bp ∈ PM10_BREAKPOINTS,
    bp.1 < bp.2.1 ∧ bp.2.2.1 ≤ bp.2.2.2 ∧ bp.2.2.2 ≤ 999 := by
  intro bp hbp
  simp only [PM10_BREAKPOINTS, List.mem_cons, List.not_mem_nil, or_false] at hbp
  rcases hbp with h | h | h | h | h | h | h <;> subst h <;>
    refine ⟨by norm_num, by norm_num, by norm_num⟩

/-- Any sub-index produced by a table-row match is a natural number bounded
by the matched row's index endpoints. -/
lemma lookupBp_range (T : List Breakpoint)
    (hT : ∀ bp ∈ T, bp.1 < bp.2.1 ∧ bp.2.2.1 ≤ bp.2.2.2 ∧ bp.2.2.2 ≤ 999)
    (c v : ℚ) (h : lookupBp c T = some v) :
    ∃ n : ℕ, v = (n : ℚ) ∧ n ≤ 999 := by
  obtain ⟨bp, hbp, h1, h2, h3⟩ := lookupBp_eq_some c v T h
  obtain ⟨hlt, hle, h999⟩ := hT bp hbp
  obtain ⟨lo, hi, ilo, ihi⟩ := bp
  obtain ⟨hI1, hI2⟩ := interp_bounds lo hi ilo ihi c hlt hle h1 h2
  obtain ⟨n, hn, hn1, hn2⟩ := rustRound_nat_bounds ilo ihi _ hI1 hI2
  exact ⟨n, by rw [h3, hn], le_trans hn2 h999⟩

/-- Any result of `calculate_pollutant_aqi` on either table is a natural
number at most `999` (table match: bounded by the row endpoints;
saturation: exactly `500`). -/
lemma calculate_pollutant_aqi_range (T : List Breakpoint)
    (hT : ∀ bp ∈ T, bp.1 < bp.2.1 ∧ bp.2.2.1 ≤ bp.2.2.2 ∧ bp.2.2.2 ≤ 999)
    (c v : ℚ) (h : calculate_pollutant_aqi c T = some v) :
    ∃ n : ℕ, v = (n : ℚ) ∧ n ≤ 999 := by
  rw [calculate_pollutant_aqi] at h
  rcases hl : lookupBp c T with _ | w
  · rw [hl] at h
    rcases hlast : T.getLast? with _ | last
    · rw [hlast] at h
      simp at h
    · rw [hlast] at h
      dsimp only at h
      split at h
      · injection h with h
        exact ⟨500, by rw [← h]; norm_num, by norm_num⟩
      · simp at h
  · rw [hl] at h
    injection h with h
    subst h
    exact lookupBp_range T hT c w hl

lemma pm25_getLast : PM25_BREAKPOINTS.getLast? = some (325.5, 999.9, 501, 999) := rfl

lemma pm10_getLast : PM10_BREAKPOINTS.getLast? = some (605, 999, 501, 999) := rfl

/-- C3: for every concentration strictly greater than the final upper bound of
its breakpoint table (999.9 for PM2.5, 999 for PM10), `calculate_pollutant_aqi`
returns the saturated index 500 rather than none. -/
theorem saturation_above_final_bound :
    (∀ c : ℚ, 999.9 < c → calculate_pollutant_aqi c PM25_BREAKPOINTS = some 500) ∧
    (∀ c : ℚ, 999 < c → calculate_pollutant_aqi c PM10_BREAKPOINTS = some 500) := by
  constructor
  · intro c hc
    have hnone : lookupBp c PM25_BREAKPOINTS = none := by
      apply lookupBp_none_of_above
      intro bp hbp
      simp only [PM25_BREAKPOINTS, List.mem_cons, List.not_mem_nil, or_false] at hbp
      have h9 : (999.9 : ℚ) < c := hc
      rcases hbp with h | h | h | h | h | h | h <;> subst h <;> show _ < c <;>
        · norm_num
          linarith
    rw [calculate_pollutant_aqi, hnone, pm25_getLast]
    dsimp only
    rw [if_pos hc]
  · intro c hc
    have hnone : lookupBp c PM10_BREAKPOINTS = none := by
      apply lookupBp_none_of_above
      intro bp hbp
      simp only [PM10_BREAKPOINTS, List.mem_cons, List.not_mem_nil, or_false] at hbp
      have h9 : (999 : ℚ) < c := hc
      rcases hbp with h | h | h | h | h | h | h <;> subst h <;> show _ < c <;>
        · norm_num
          linarith
    rw [calculate_pollutant_aqi, hnone, pm10_getLast]
    dsimp only
    rw [if_pos hc]

/-- Witness for C3 at the concrete concentration 1500. -/
theorem saturation_above_final_bound_witness :
    calculate_pollutant_aqi 1500 PM25_BREAKPOINTS = some 500 ∧
    calculate_pollutant_aqi 1500 PM10_BREAKPOINTS = some 500 :=
  ⟨saturation_above_final_bound.1 1500 (by norm_num),
   saturation_above_final_bound.2 1500 (by norm_num)⟩

/-- C9: inclusive boundary law — for every row of either table, a
concentration exactly at the row's lower (resp. upper) bound yields exactly
the row's lower (resp. upper) index endpoint. -/
theorem breakpoint_endpoints_exact :
    (∀ bp ∈ PM25_BREAKPOINTS,
      calculate_pollutant_aqi bp.1 PM25_BREAKPOINTS = some ((bp.2.2.1 : ℕ) : ℚ) ∧
      calculate_pollutant_aqi bp.2.1 PM25_BREAKPOINTS = some ((bp.2.2.2 : ℕ) : ℚ)) ∧
    (∀ bp ∈ PM10_BREAKPOINTS,
      calculate_pollutant_aqi bp.1 PM10_BREAKPOINTS = some ((bp.2.2.1 : ℕ) : ℚ)  ∧
      calculate_pollutant_aqi bp.2.1 PM10_BREAKPOINTS = some ((bp.2.2.2 : ℕ) : ℚ)) := by
  constructor
  · intro bp hbp
    simp only [PM25_BREAKPOINTS, List.mem_cons, List.not_mem_nil, or_false] at hbp
    rcases hbp with h | h | h | h | h | h | h <;> subst h <;>
      exact ⟨by norm_num [calculate_pollutant_aqi, lookupBp, PM25_BREAKPOINTS, interp, rustRound],
             by norm_num [calculate_pollutant_aqi, lookupBp, PM25_BREAKPOINTS, interp, rustRound]⟩
  · intro bp hbp
    simp only [PM10_BREAKPOINTS, List.mem_cons, List.not_mem_nil, or_false] at hbp
    rcases hbp with h | h | h | h | h | h | h <;> subst h <;>
      exact ⟨by norm_num [calculate_pollutant_aqi, lookupBp, PM10_BREAKPOINTS, interp, rustRound],
             by norm_num [calculate_pollutant_aqi, lookupBp, PM10_BREAKPOINTS, interp, rustRound]⟩

/-- Witness for C9 at the first PM2.5 row (0.0, 9.0, 0, 50). -/
theorem breakpoint_endpoints_exact_witness :
    calculate_pollutant_aqi 0 PM25_BREAKPOINTS = some 0 ∧
    calculate_pollutant_aqi 9 PM25_BREAKPOINTS = some 50 :=
  breakpoint_endpoints_exact.1 (0, 9, 0, 50) (by simp [PM25_BREAKPOINTS])

lemma lookupBp_pm25_last_row (c : ℚ) (h1 : 325.5 ≤ c) (h2 : c ≤ 999.9) :
    lookupBp c PM25_BREAKPOINTS = some (rustRound (interp (325.5, 999.9, 501, 999) c)) := by
  simp only [PM25_BREAKPOINTS, lookupBp]
  rw [if_neg, if_neg, if_neg, if_neg, if_neg, if_neg, if_pos ⟨h1, h2⟩] <;>
    · intro hc
      have : c ≤ (325.4 : ℚ) := le_trans hc.2 (by norm_num)
      linarith

lemma lookupBp_pm10_last_row (c : ℚ) (h1 : 605 ≤ c) (h2 : c ≤ 999) :
    lookupBp c PM10_BREAKPOINTS = some (rustRound (interp (605, 999, 501, 999) c)) := by
  simp only [PM10_BREAKPOINTS, lookupBp]
  rw [if_neg, if_neg, if_neg, if_neg, if_neg, if_neg, if_pos ⟨h1, h2⟩] <;>
    · intro hc
      have : c ≤ (604 : ℚ) := le_trans hc.2 (by norm_num)
      linarith

/-- C10: every sub-index produced by a table-row match is a nonnegative
integer-valued rational at most 999; concentrations in the final
beyond-scale rows yield sub-indices between 501 and 999, strictly above the
500 top-of-scale saturation value. -/
theorem subindex_range_and_beyond_scale :
    (∀ c v : ℚ, lookupBp c PM25_BREAKPOINTS = some v → ∃ n : ℕ, v = (n : ℚ) ∧ n ≤ 999) ∧
    (∀ c v : ℚ, lookupBp c PM10_BREAKPOINTS = some v → ∃ n : ℕ, v = (n : ℚ) ∧ n ≤ 999) ∧
    (∀ c : ℚ, 325.5 ≤ c → c ≤ 999.9 →
      ∃ n : ℕ, calculate_pollutant_aqi c PM25_BREAKPOINTS = some ((n : ℕ) : ℚ) ∧
        501 ≤ n ∧ n ≤ 999) ∧
    (∀ c : ℚ, 605 ≤ c → c ≤ 999 →
      ∃ n : ℕ, calculate_pollutant_aqi c PM10_BREAKPOINTS = some ((n : ℕ) : ℚ) ∧
        501 ≤ n ∧ n ≤ 999) := by
  refine ⟨fun c v h => lookupBp_range PM25_BREAKPOINTS pm25_rows c v h,
          fun c v h => lookupBp_range PM10_BREAKPOINTS pm10_rows c v h, ?_, ?_⟩
  · intro c h1 h2
    obtain ⟨hI1, hI2⟩ :=
      interp_bounds 325.5 999.9 501 999 c (by norm_num) (by norm_num) h1 h2
    obtain ⟨n, hn, hn1, hn2⟩ := rustRound_nat_bounds 501 999 _ hI1 hI2
    refine ⟨n, ?_, hn1, hn2⟩
    rw [calculate_pollutant_aqi, lookupBp_pm25_last_row c h1 h2, hn]
  · intro c h1 h2
    obtain ⟨hI1, hI2⟩ :=
      interp_bounds 605 999 501 999 c (by norm_num) (by norm_num) h1 h2
    obtain ⟨n, hn, hn1, hn2⟩ := rustRound_nat_bounds 501 999 _ hI1 hI2
    refine ⟨n, ?_, hn1, hn2⟩
    rw [calculate_pollutant_aqi, lookupBp_pm10_last_row c h1 h2, hn]

/-- Witness for C10: a Moderate-range lookup at PM2.5 concentration 20
(sub-index 71) and a beyond-scale lookup at PM2.5 concentration 400. -/
theorem subindex_range_and_beyond_scale_witness :
    (∃ n : ℕ, (71 : ℚ) = (n : ℚ) ∧ n ≤ 999) ∧
    (∃ n : ℕ, calculate_pollutant_aqi 400 PM25_BREAKPOINTS = some ((n : ℕ) : ℚ) ∧
      501 ≤ n ∧ n ≤ 999) :=
  ⟨subindex_range_and_beyond_scale.1 20 71
      (by norm_num [lookupBp, PM25_BREAKPOINTS, interp, rustRound]),
   subindex_range_and_beyond_scale.2.2.1 400 (by norm_num) (by norm_num)⟩

example : pm25_subindex (some 0) = some 0 := by
  norm_num [pm25_subindex, calculate_pollutant_aqi, lookupBp, PM25_BREAKPOINTS,
    interp, rustRound, truncate_pm25]

lemma pm25_subindex_nonneg (p : Option ℚ) (v : ℚ) (h : pm25_subindex p = some v) :
    0 ≤ v := by
  rw [pm25_subindex, Option.bind_eq_some] at h
  obtain ⟨c, _, hc⟩ := h
  obtain ⟨n, hn, _⟩ := calculate_pollutant_aqi_range PM25_BREAKPOINTS pm25_rows _ v hc
  rw [hn]
  positivity

lemma pm10_subindex_nonneg (q : Option ℚ) (w : ℚ) (h : pm10_subindex q = some w) :
    0 ≤ w := by
  rw [pm10_subindex, Option.bind_eq_some] at h
  obtain ⟨c, _, hc⟩ := h
  obtain ⟨n, hn, _⟩ := calculate_pollutant_aqi_range PM10_BREAKPOINTS pm10_rows _ w hc
  rw [hn]
  positivity


/-- Full inversion of the `calculate_aqi` fold: the result's sub-index fields
are the computed sub-indices, the category is derived from the overall value,
the overall value is one of the present sub-indices, and the overall value
and primary pollutant follow the strict-greater-than running-max discipline. -/
lemma calculate_aqi_inversion (p q : Option ℚ) (r : AqiResult)
    (h : calculate_aqi p q = some r) :
    r.pm25_aqi = pm25_subindex p ∧
    r.pm10_aqi = pm10_subindex q ∧
    r.category = AqiCategory.from_aqi r.aqi ∧
    (r.pm25_aqi = some r.aqi ∨ r.pm10_aqi = some r.aqi) ∧
    (∀ v, r.pm25_aqi = some v → r.pm10_aqi = none →
      r.aqi = v ∧ r.primary_pollutant = "PM2.5") ∧
    (∀ w, r.pm25_aqi = none → r.pm10_aqi = some w →
      r.aqi = w ∧ r.primary_pollutant = "PM10") ∧
    (∀ v w, r.pm25_aqi = some v → r.pm10_aqi = some w →
      r.aqi = max v w ∧ (v = w → r.primary_pollutant = "PM2.5")) := by
  rw [calculate_aqi] at h
  rcases hp : pm25_subindex p with _ | v <;>
    rcases hq : pm10_subindex q with _ | w <;>
      rw [show (p.bind fun pm25 =>
            calculate_pollutant_aqi (truncate_pm25 pm25) PM25_BREAKPOINTS) = pm25_subindex p
          from rfl,
        show (q.bind fun pm10 =>
            calculate_pollutant_aqi (truncate_pm10 pm10) PM10_BREAKPOINTS) = pm10_subindex q
          from rfl, hp, hq] at h
  · -- neither sub-index present
    simp at h
  · -- only the PM10 sub-index present
    dsimp only at h
    by_cases h0 : (0 : ℚ) < w
    · rw [if_pos h0] at h
      rw [if_neg (show ¬("PM10" : String) = "" by decide)] at h
      rw [Option.some.injEq] at h
      subst h
      refine ⟨rfl, rfl, rfl, Or.inr rfl, ?_, ?_, ?_⟩
      · intro v hv _
        simp at hv
      · intro w' _ hw
        injection hw with hw
        exact ⟨hw, rfl⟩
      · intro v w' hv _
        simp at hv
    · rw [if_neg h0, if_pos rfl] at h
      simp at h
  · -- only the PM2.5 sub-index present
    dsimp only at h
    by_cases h0 : (0 : ℚ) < v
    · rw [if_pos h0] at h
      dsimp only at h
      rw [if_neg (show ¬("PM2.5" : String) = "" by decide)] at h
      rw [Option.some.injEq] at h
      subst h
      refine ⟨rfl, rfl, rfl, Or.inl rfl, ?_, ?_, ?_⟩
      · intro v' hv _
        injection hv with hv
        exact ⟨hv, rfl⟩
      · intro w' hv _
        simp at hv
      · intro v' w' _ hw
        simp at hw
    · rw [if_neg h0] at h
      dsimp only at h
      rw [if_pos rfl] at h
      simp at h
  · -- both sub-indices present
    have hv0 : 0 ≤ v := pm25_subindex_nonneg p v hp
    have hw0 : 0 ≤ w := pm10_subindex_nonneg q w hq
    dsimp only at h
    by_cases h0 : (0 : ℚ) < v
    · rw [if_pos h0] at h
      dsimp only at h
      by_cases h1 : v < w
      · rw [if_pos h1] at h
        rw [if_neg (show ¬("PM10" : String) = "" by decide)] at h
        rw [Option.some.injEq] at h
        subst h
        refine ⟨rfl, rfl, rfl, Or.inr rfl, ?_, ?_, ?_⟩
        · intro v' _ hw'
          simp at hw'
        · intro w' hv' _
          simp at hv'
        · intro v' w' hv' hw'
          injection hv' with hv'
          injection hw' with hw'
          subst hv'
          subst hw'
          exact ⟨(max_eq_right (le_of_lt h1)).symm, fun hvw => absurd hvw (ne_of_lt h1)⟩
      · rw [if_neg h1] at h
        rw [if_neg (show ¬("PM2.5" : String) = "" by decide)] at h
        rw [Option.some.injEq] at h
        subst h
        refine ⟨rfl, rfl, rfl, Or.inl rfl, ?_, ?_, ?_⟩
        · intro v' _ hw'
          simp at hw'
        · intro w' hv' _
          simp at hv'
        · intro v' w' hv' hw'
          injection hv' with hv'
          injection hw' with hw'
          subst hv'
          subst hw'
          exact ⟨(max_eq_left (not_lt.mp h1)).symm, fun _ => rfl⟩
    · have hv : v = 0 := le_antisymm (not_lt.mp h0) hv0
      rw [if_neg h0] at h
      dsimp only at h
      by_cases h2 : (0 : ℚ) < w
      · rw [if_pos h2] at h
        rw [if_neg (show ¬("PM10" : String) = "" by decide)] at h
        rw [Option.some.injEq] at h
        subst h
        refine ⟨rfl, rfl, rfl, Or.inr rfl, ?_, ?_, ?_⟩
        · intro v' _ hw'
          simp at hw'
        · intro w' hv' _
          simp at hv'
        · intro v' w' hv' hw'
          injection hv' with hv'
          injection hw' with hw'
          subst hv'
          subst hw'
          subst hv
          exact ⟨(max_eq_right (le_of_lt h2)).symm, fun hvw => absurd hvw (ne_of_lt h2)⟩
      · rw [if_neg h2, if_pos rfl] at h
        simp at h

/-- C4: whenever `calculate_aqi` returns a result, the overall `aqi` field is
the maximum of the sub-indices that are present, and on an exact tie of both
sub-indices the primary pollutant is PM2.5 (strict greater-than replaces the
running maximum, PM2.5 compared first). -/
theorem overall_aqi_max_and_tiebreak :
    ∀ p q r, calculate_aqi p q = some r →
      (∀ v, r.pm25_aqi = some v → r.pm10_aqi = none → r.aqi = v) ∧
      (∀ w, r.pm25_aqi = none → r.pm10_aqi = some w → r.aqi = w) ∧
      (∀ v w, r.pm25_aqi = some v → r.pm10_aqi = some w →
        r.aqi = max v w ∧ (v = w → r.primary_pollutant = "PM2.5")) := by
  intro p q r h
  obtain ⟨_, _, _, _, h5, h6, h7⟩ := calculate_aqi_inversion p q r h
  exact ⟨fun v hv hw => (h5 v hv hw).1, fun w hv hw => (h6 w hv hw).1, h7⟩

/-- Witness for C4: the PM2.5 = 20, PM10 = 30 input of the repository's own
test, with sub-indices 71 and 28 and overall AQI max 71 28 = 71. -/
theorem overall_aqi_max_and_tiebreak_witness :
    ∃ r : AqiResult, calculate_aqi (some 20) (some 30) = some r ∧ r.aqi = max 71 28 := by
  have hc : calculate_aqi (some 20) (some 30) = some
      { aqi := 71, category := AqiCategory.from_aqi 71, primary_pollutant := "PM2.5",
        pm25_aqi := some 71, pm10_aqi := some 28 } := by
    norm_num [calculate_aqi, calculate_pollutant_aqi, lookupBp, PM25_BREAKPOINTS,
      PM10_BREAKPOINTS, interp, rustRound, truncate_pm25, truncate_pm10]
    exact fun hcontra => absurd hcontra (by decide)
  exact ⟨_, hc, ((overall_aqi_max_and_tiebreak (some 20) (some 30) _ hc).2.2 71 28
    rfl rfl).1⟩

/-- On natural-valued AQI values up to 999 the `as u16` range match of the
source agrees with the specification's integer-breakpoint mapping. -/
lemma from_aqi_eq_spec (n : ℕ) (h : n ≤ 999) :
    AqiCategory.from_aqi ((n : ℕ) : ℚ) = categoryBreakpointsSpec ((n : ℕ) : ℚ) := by
  have hfl : ⌊((n : ℕ) : ℚ)⌋ = (n : ℤ) := Int.floor_natCast n
  have hcast : u16cast ((n : ℕ) : ℚ) = n := by
    simp only [u16cast, hfl]
    omega
  simp only [AqiCategory.from_aqi, categoryBreakpointsSpec, hcast]
  by_cases b1 : n ≤ 50
  · rw [if_pos b1, if_pos (show (((n : ℕ) : ℚ) ≤ 50) by exact_mod_cast b1)]
  · rw [if_neg b1, if_neg (show ¬(((n : ℕ) : ℚ) ≤ 50) by exact_mod_cast b1)]
    by_cases b2 : n ≤ 100
    · rw [if_pos b2, if_pos (show (((n : ℕ) : ℚ) ≤ 100) by exact_mod_cast b2)]
    · rw [if_neg b2, if_neg (show ¬(((n : ℕ) : ℚ) ≤ 100) by exact_mod_cast b2)]
      by_cases b3 : n ≤ 150
      · rw [if_pos b3, if_pos (show (((n : ℕ) : ℚ) ≤ 150) by exact_mod_cast b3)]
      · rw [if_neg b3, if_neg (show ¬(((n : ℕ) : ℚ) ≤ 150) by exact_mod_cast b3)]
        by_cases b4 : n ≤ 200
        · rw [if_pos b4, if_pos (show (((n : ℕ) : ℚ) ≤ 200) by exact_mod_cast b4)]
        · rw [if_neg b4, if_neg (show ¬(((n : ℕ) : ℚ) ≤ 200) by exact_mod_cast b4)]
          by_cases b5 : n ≤ 300
          · rw [if_pos b5, if_pos (show (((n : ℕ) : ℚ) ≤ 300) by exact_mod_cast b5)]
          · rw [if_neg b5, if_neg (show ¬(((n : ℕ) : ℚ) ≤ 300) by exact_mod_cast b5)]

/-- C5: every result of `calculate_aqi` carries the category given by the
fixed integer breakpoints applied to its overall AQI value. -/
theorem category_from_integer_breakpoints :
    ∀ p q r, calculate_aqi p q = some r → r.category = categoryBreakpointsSpec r.aqi := by
  intro p q r h
  obtain ⟨h1, h2, hcat, hone, _, _, _⟩ := calculate_aqi_inversion p q r h
  have hn : ∃ n : ℕ, r.aqi = ((n : ℕ) : ℚ) ∧ n ≤ 999 := by
    rcases hone with hl | hr
    · rw [h1, pm25_subindex, Option.bind_eq_some] at hl
      obtain ⟨c, _, hc⟩ := hl
      exact calculate_pollutant_aqi_range PM25_BREAKPOINTS pm25_rows _ _ hc
    · rw [h2, pm10_subindex, Option.bind_eq_some] at hr
      obtain ⟨c, _, hc⟩ := hr
      exact calculate_pollutant_aqi_range PM10_BREAKPOINTS pm10_rows _ _ hc
  obtain ⟨n, hn, h999⟩ := hn
  rw [hcat, hn, from_aqi_eq_spec n h999]

/-- Witness for C5 at PM2.5 = 20, PM10 = 30: the result's category (Moderate)
equals the spec mapping applied to the overall AQI 71. -/
theorem category_from_integer_breakpoints_witness :
    ∃ r : AqiResult, calculate_aqi (some 20) (some 30) = some r ∧
      r.category = categoryBreakpointsSpec r.aqi := by
  have hc : calculate_aqi (some 20) (some 30) = some
      { aqi := 71, category := AqiCategory.from_aqi 71, primary_pollutant := "PM2.5",
        pm25_aqi := some 71, pm10_aqi := some 28 } := by
    norm_num [calculate_aqi, calculate_pollutant_aqi, lookupBp, PM25_BREAKPOINTS,
      PM10_BREAKPOINTS, interp, rustRound, truncate_pm25, truncate_pm10]
    exact fun hcontra => absurd hcontra (by decide)
  exact ⟨_, hc, category_from_integer_breakpoints (some 20) (some 30) _ hc⟩

/-- Counterexample to C1 as stated: at pm25 = 0.0 (pm10 absent) the PM2.5
concentration is present and yields the sub-index 0 from the breakpoint
table, yet `calculate_aqi` returns none — the `aqi > max_aqi` branch never
fires because `max_aqi` starts at 0. -/
theorem aqi_none_despite_subindex_cex :
    pm25_subindex (some 0) = some 0 ∧ calculate_aqi (some 0) none = none := by
  constructor
  · norm_num [pm25_subindex, calculate_pollutant_aqi, lookupBp, PM25_BREAKPOINTS,
      interp, rustRound, truncate_pm25]
  · norm_num [calculate_aqi, calculate_pollutant_aqi, lookupBp, PM25_BREAKPOINTS,
      interp, rustRound, truncate_pm25]

/-- C1 amended: `calculate_aqi` returns none if and only if neither pollutant
produced a sub-index strictly greater than zero — both absent or out of
range, or every produced sub-index equal to 0. -/
theorem aqi_none_iff_no_positive_subindex :
    ∀ p q : Option ℚ, calculate_aqi p q = none ↔
      (∀ v, pm25_subindex p = some v → v ≤ 0) ∧
      (∀ w, pm10_subindex q = some w → w ≤ 0) := by
  intro p q
  rw [calculate_aqi]
  rw [show (p.bind fun pm25 =>
        calculate_pollutant_aqi (truncate_pm25 pm25) PM25_BREAKPOINTS) = pm25_subindex p
      from rfl,
    show (q.bind fun pm10 =>
        calculate_pollutant_aqi (truncate_pm10 pm10) PM10_BREAKPOINTS) = pm10_subindex q
      from rfl]
  rcases hp : pm25_subindex p with _ | v <;> rcases hq : pm10_subindex q with _ | w
  · simp
  · -- only the PM10 sub-index present
    dsimp only
    by_cases h0 : (0 : ℚ) < w
    · rw [if_pos h0, if_neg (show ¬("PM10" : String) = "" by decide)]
      constructor
      · intro hc
        simp at hc
      · rintro ⟨-, h2⟩
        have := h2 w rfl
        linarith
    · rw [if_neg h0, if_pos rfl]
      constructor
      · intro _
        refine ⟨fun v hv => by simp at hv, fun w' hw => ?_⟩
        injection hw with hw
        exact hw ▸ not_lt.mp h0
      · intro _
        rfl
  · -- only the PM2.5 sub-index present
    dsimp only
    by_cases h0 : (0 : ℚ) < v
    · rw [if_pos h0]
      dsimp only
      rw [if_neg (show ¬("PM2.5" : String) = "" by decide)]
      constructor
      · intro hc
        simp at hc
      · rintro ⟨h1, -⟩
        have := h1 v rfl
        linarith
    · rw [if_neg h0]
      dsimp only
      rw [if_pos rfl]
      constructor
      · intro _
        refine ⟨fun v' hv => ?_, fun w' hw => by simp at hw⟩
        injection hv with hv
        exact hv ▸ not_lt.mp h0
      · intro _
        rfl
  · -- both sub-indices present
    dsimp only
    by_cases h0 : (0 : ℚ) < v
    · rw [if_pos h0]
      dsimp only
      by_cases h1 : v < w
      · rw [if_pos h1, if_neg (show ¬("PM10" : String) = "" by decide)]
        constructor
        · intro hc
          simp at hc
        · rintro ⟨h2, -⟩
          have := h2 v rfl
          linarith
      · rw [if_neg h1, if_neg (show ¬("PM2.5" : String) = "" by decide)]
        constructor
        · intro hc
          simp at hc
        · rintro ⟨h2, -⟩
          have := h2 v rfl
          linarith
    · rw [if_neg h0]
      dsimp only
      by_cases h2 : (0 : ℚ) < w
      · rw [if_pos h2, if_neg (show ¬("PM10" : String) = "" by decide)]
        constructor
        · intro hc
          simp at hc
        · rintro ⟨-, h3⟩
          have := h3 w rfl
          linarith
      · rw [if_neg h2, if_pos rfl]
        constructor
        · intro _
          refine ⟨fun v' hv => ?_, fun w' hw => ?_⟩
          · injection hv with hv
            exact hv ▸ not_lt.mp h0
          · injection hw with hw
            exact hw ▸ not_lt.mp h2
        · intro _
          rfl

/-- Witness for the amended C1 at pm25 = some 0, pm10 = none: the PM2.5
sub-index is exactly 0, so the result is none. -/
theorem aqi_none_iff_no_positive_subindex_witness :
    calculate_aqi (some 0) none = none :=
  (aqi_none_iff_no_positive_subindex (some 0) none).mpr
    ⟨fun v hv => by
        have h : pm25_subindex (some 0) = some 0 := by
          norm_num [pm25_subindex, calculate_pollutant_aqi, lookupBp, PM25_BREAKPOINTS,
            interp, rustRound, truncate_pm25]
        rw [h] at hv
        injection hv with hv
        exact le_of_eq hv.symm,
     fun w hw => by simp [pm10_subindex] at hw⟩

lemma truncate_pm25_idem (v : ℚ) : truncate_pm25 (truncate_pm25 v) = truncate_pm25 v := by
  simp only [truncate_pm25]
  rw [div_mul_cancel₀ _ (by norm_num : (10 : ℚ) ≠ 0), Int.floor_intCast]

lemma truncate_pm10_idem (v : ℚ) : truncate_pm10 (truncate_pm10 v) = truncate_pm10 v := by
  simp only [truncate_pm10, Int.floor_intCast]

/-- C8: concentrations are truncated before breakpoint lookup —
`truncate_pm25` floors to one decimal place (`truncate_pm25 12.39 = 12.3`,
`truncate_pm25 12.0 = 12.0`), `truncate_pm10` floors to an integer
(`truncate_pm10 54.9 = 54.0`), each truncation moves the value down by less
than its precision step onto a 1-decimal (resp. integer) grid, and
`calculate_aqi` is invariant under pre-truncating its inputs, i.e. it only
ever consults the tables at truncated concentrations. -/
theorem truncation_before_lookup :
    truncate_pm25 12.39 = 12.3 ∧ truncate_pm25 12 = 12 ∧ truncate_pm10 54.9 = 54 ∧
    (∀ v : ℚ, truncate_pm25 v ≤ v ∧ v < truncate_pm25 v + 1/10 ∧
      ∃ n : ℤ, truncate_pm25 v = (n : ℚ) / 10) ∧
    (∀ v : ℚ, truncate_pm10 v ≤ v ∧ v < truncate_pm10 v + 1 ∧
      ∃ n : ℤ, truncate_pm10 v = (n : ℚ)) ∧
    (∀ p q : Option ℚ,
      calculate_aqi p q = calculate_aqi (p.map truncate_pm25) (q.map truncate_pm10)) := by
  refine ⟨by norm_num [truncate_pm25], by norm_num [truncate_pm25],
    by norm_num [truncate_pm10], ?_, ?_, ?_⟩
  · intro v
    have hle := Int.floor_le (v * 10)
    have hlt := Int.lt_floor_add_one (v * 10)
    refine ⟨?_, ?_, ⟨⌊v * 10⌋, rfl⟩⟩
    · rw [truncate_pm25]
      linarith
    · rw [truncate_pm25]
      linarith
  · intro v
    exact ⟨Int.floor_le v, Int.lt_floor_add_one v, ⟨⌊v⌋, rfl⟩⟩
  · intro p q
    have h1 : ((p.map truncate_pm25).bind fun pm25 =>
        calculate_pollutant_aqi (truncate_pm25 pm25) PM25_BREAKPOINTS)
        = (p.bind fun pm25 => calculate_pollutant_aqi (truncate_pm25 pm25) PM25_BREAKPOINTS) := by
      rcases p with _ | v
      · rfl
      · show calculate_pollutant_aqi (truncate_pm25 (truncate_pm25 v)) PM25_BREAKPOINTS = _
        rw [truncate_pm25_idem]
        rfl
    have h2 : ((q.map truncate_pm10).bind fun pm10 =>
        calculate_pollutant_aqi (truncate_pm10 pm10) PM10_BREAKPOINTS)
        = (q.bind fun pm10 => calculate_pollutant_aqi (truncate_pm10 pm10) PM10_BREAKPOINTS) := by
      rcases q with _ | v
      · rfl
      · show calculate_pollutant_aqi (truncate_pm10 (truncate_pm10 v)) PM10_BREAKPOINTS = _
        rw [truncate_pm10_idem]
        rfl
    rw [calculate_aqi, calculate_aqi, h1, h2]

/-! ### Unit extraction (claim C7) -/

lemma fmtValue_int (n : ℤ) : fmtValue ((n : ℤ) : ℚ) = intChars n := by
  rw [fmtValue, if_pos (by rw [Int.floor_intCast]), Int.floor_intCast]

lemma fmtValue_450 : fmtValue 450 = "450".data := by
  have h : ((450 : ℤ) : ℚ) = 450 := by norm_num
  rw [← h, fmtValue_int]
  decide

lemma fmtValue_520 : fmtValue 520 = "520".data := by
  have h : ((520 : ℤ) : ℚ) = 520 := by norm_num
  rw [← h, fmtValue_int]
  decide

lemma fmtValue_neg62 : fmtValue (-62) = "-62".data := by
  have h : (((-62) : ℤ) : ℚ) = -62 := by norm_num
  rw [← h, fmtValue_int]
  decide

lemma fmtValue_225 : fmtValue 22.5 = "22.5".data := by
  rw [fmtValue, if_neg (show ¬((⌊(22.5 : ℚ)⌋ : ℚ) = 22.5) by norm_num),
    if_neg (show ¬(22.5 : ℚ) < 0 by norm_num)]
  have h1 : |(22.5 : ℚ)| = 22.5 := by norm_num
  rw [h1]
  have h2 : ⌊(22.5 : ℚ)⌋ = 22 := by norm_num
  have h3 : ⌊(22.5 : ℚ) * 10⌋ = 225 := by norm_num
  rw [h2, h3]
  decide

lemma fallback_chain_eq (state : List Char) :
    (if containsSub degC state then degC
     else if containsSub degF state then degF
     else if containsSub pctU state then pctU
     else if containsSub ppmU state then ppmU
     else if containsSub ugm3U state then ugm3U
     else if containsSub hPaU state then hPaU
     else if containsSub lxU state then lxU
     else if containsSub dBmU state then dBmU
     else if containsSub spaceS state then sU
     else []) =
    (match unitFallbacks.find? (fun pr => containsSub pr.1 state) with
     | some pr => pr.2
     | none => []) := by
  rw [unitFallbacks]
  cases c1 : containsSub degC state
  · cases c2 : containsSub degF state
    · cases c3 : containsSub pctU state
      · cases c4 : containsSub ppmU state
        · cases c5 : containsSub ugm3U state
          · cases c6 : containsSub hPaU state
            · cases c7 : containsSub lxU state
              · cases c8 : containsSub dBmU state
                · cases c9 : containsSub spaceS state
                  · simp [List.find?, c1, c2, c3, c4, c5, c6, c7, c8, c9]
                  · simp [List.find?, c1, c2, c3, c4, c5, c6, c7, c8, c9]
                · simp [List.find?, c1, c2, c3, c4, c5, c6, c7, c8]
              · simp [List.find?, c1, c2, c3, c4, c5, c6, c7]
            · simp [List.find?, c1, c2, c3, c4, c5, c6]
          · simp [List.find?, c1, c2, c3, c4, c5]
        · simp [List.find?, c1, c2, c3, c4]
      · simp [List.find?, c1, c2, c3]
    · simp [List.find?, c1, c2]
  · simp [List.find?, c1]

/-- C7: `extract_unit` follows the specified algorithm for every (state,
value) pair — exact rendering first, then one-decimal rendering, trimmed
suffix after the match, then the fixed ordered fallback substring list with
first match winning, else empty — and evaluates as specified on the three
concrete examples. -/
theorem extract_unit_algorithm :
    (∀ (state : List Char) (value : ℚ),
      extract_unit state value = extractUnitSpec state value) ∧
    extract_unit ("450 ppm".data) 450 = ppmU ∧
    extract_unit ("22.5 °C".data) 22.5 = degC ∧
    extract_unit ("-62 dBm".data) (-62) = dBmU := by
  refine ⟨?_, ?_, ?_, ?_⟩
  · intro state value
    rw [extract_unit, extractUnitSpec]
    rcases findSuffixAfter (fmtValue value) state with _ | suf
    · rcases findSuffixAfter (fmtValue1 value) state with _ | suf1
      · exact fallback_chain_eq state
      · rfl
    · rfl
  · rw [extract_unit, fmtValue_450]
    decide
  · rw [extract_unit, fmtValue_225]
    decide
  · rw [extract_unit, fmtValue_neg62]
    decide

/-! ### The sensor probe (claim C6) -/

lemma filterMap_fetch_keys (fetch : String → Option SensorData) :
    ∀ l : List (String × String),
      ((l.filterMap fun s => (fetch s.1).map fun data =>
          (s.1, { value := data.value
                  unit := extract_unit data.state data.value
                  name := s.2 : SensorValue })).map Prod.fst)
        = (l.filter fun s => (fetch s.1).isSome).map Prod.fst := by
  intro l
  induction l with
  | nil => rfl
  | cons s rest ih =>
    rw [List.filterMap_cons, List.filter_cons]
    rcases hf : fetch s.1 with _ | d
    · simpa [hf] using ih
    · simp [hf, ih]

/-- C6: `get_status` attempts every channel of the fixed 12-entry catalog,
returns a failure iff zero channels succeeded, and otherwise succeeds with a
snapshot containing exactly the channels whose fetch returned a reading — in
particular a device exposing exactly 2 of the 12 channels yields exactly
those 2 readings. -/
theorem probe_attempts_all_channels :
    KNOWN_SENSORS.length = 12 ∧
    (∀ (fetch : String → Option SensorData) (name : String),
      get_status fetch name = none ↔ ∀ s ∈ KNOWN_SENSORS, fetch s.1 = none) ∧
    (∀ (fetch : String → Option SensorData) (name : String) (st : ApolloStatus),
      get_status fetch name = some st →
        st.sensors.map Prod.fst
          = (KNOWN_SENSORS.filter fun s => (fetch s.1).isSome).map Prod.fst ∧
        st.device_name = name) ∧
    get_status fetchTwo "Test Device" = some
      { sensors :=
          [ ("co2", { value := 520, unit := ppmU, name := "CO2" }),
            ("sen55_temperature", { value := 22.5, unit := degC, name := "Temperature" }) ]
        device_name := "Test Device" } := by
  have hunit1 : extract_unit ("520 ppm".data) 520 = ppmU := by
    rw [extract_unit, fmtValue_520]
    decide
  have hunit2 : extract_unit ("22.5 °C".data) 22.5 = degC := by
    rw [extract_unit, fmtValue_225]
    decide
  refine ⟨rfl, ?_, ?_, ?_⟩
  · intro fetch name
    constructor
    · intro h
      by_cases he : (probe_sensors fetch).isEmpty = true
      · have hnil : probe_sensors fetch = [] := List.isEmpty_iff.mp he
        rw [probe_sensors, List.filterMap_eq_nil_iff] at hnil
        intro s hs
        have hm := hnil s hs
        rcases hf : fetch s.1 with _ | d
        · rfl
        · rw [hf] at hm
          simp at hm
      · rw [get_status, if_neg he] at h
        simp at h
    · intro hall
      have hnil : probe_sensors fetch = [] := by
        rw [probe_sensors, List.filterMap_eq_nil_iff]
        intro s hs
        rw [hall s hs]
        rfl
      rw [get_status, hnil]
      rfl
  · intro fetch name st h
    rw [get_status] at h
    by_cases he : (probe_sensors fetch).isEmpty = true
    · rw [if_pos he] at h
      simp at h
    · rw [if_neg he] at h
      rw [Option.some.injEq] at h
      rw [← h]
      refine ⟨?_, rfl⟩
      show (probe_sensors fetch).map Prod.fst = _
      rw [probe_sensors]
      exact filterMap_fetch_keys fetch KNOWN_SENSORS
  · have hps : probe_sensors fetchTwo =
        [ ("co2", { value := 520, unit := ppmU, name := "CO2" }),
          ("sen55_temperature", { value := 22.5, unit := degC, name := "Temperature" }) ] := by
      rw [probe_sensors, KNOWN_SENSORS]
      simp [fetchTwo, List.filterMap_cons, hunit1, hunit2]
    rw [get_status, hps]
    rfl

/-- Witness for C6: applying the success case at the concrete 2-of-12 probe
yields a snapshot whose channel keys are exactly the two fetchable ones. -/
theorem probe_attempts_all_channels_witness :
    ∃ st : ApolloStatus, get_status fetchTwo "Test Device" = some st ∧
      st.sensors.map Prod.fst
        = (KNOWN_SENSORS.filter fun s => (fetchTwo s.1).isSome).map Prod.fst :=
  ⟨_, probe_attempts_all_channels.2.2.2,
    (probe_attempts_all_channels.2.2.1 fetchTwo "Test Device" _
      probe_attempts_all_channels.2.2.2).1⟩

/-! ### The metrics store invariant (claim C2) -/

lemma lookupA_setAssoc_self {α β : Type} [DecidableEq α] (k : α) (v : β)
    (l : List (α × β)) : lookupA k (setAssoc k v l) = some v := by
  induction l with
  | nil => simp [setAssoc, lookupA]
  | cons e rest ih =>
    rw [setAssoc]
    by_cases he : e.1 = k
    · rw [if_pos he, lookupA, if_pos rfl]
    · rw [if_neg he, lookupA, if_neg he]
      exact ih

lemma lookupA_setAssoc_ne {α β : Type} [DecidableEq α] (k k' : α) (v : β)
    (l : List (α × β)) (hne : k' ≠ k) :
    lookupA k (setAssoc k' v l) = lookupA k l := by
  induction l with
  | nil => simp [setAssoc, lookupA, hne]
  | cons e rest ih =>
    rw [setAssoc]
    by_cases he : e.1 = k'
    · rw [if_pos he, lookupA, if_neg hne, lookupA, if_neg]
      rw [he]
      exact hne
    · rw [if_neg he, lookupA, lookupA]
      by_cases hek : e.1 = k
      · rw [if_pos hek, if_pos hek]
      · rw [if_neg hek, if_neg hek]
        exact ih

lemma infoPairs_nil (d h : String) : infoPairs [] d h = [] := rfl

lemma infoPairs_cons (e : InfoKey × ℚ) (l : List (InfoKey × ℚ)) (d h : String) :
    infoPairs (e :: l) d h =
      (if e.1.device = d ∧ e.1.host = h then [(e.1.category, e.1.pollutant)] else []) ++
        infoPairs l d h := by
  by_cases hc : e.1.device = d ∧ e.1.host = h
  · rw [if_pos hc, infoPairs, List.filterMap_cons, if_pos hc]
    rfl
  · rw [if_neg hc, infoPairs, List.filterMap_cons, if_neg hc]
    rfl

lemma infoPairs_eq_nil_iff (l : List (InfoKey × ℚ)) (d h : String) :
    infoPairs l d h = [] ↔ ∀ e ∈ l, ¬(e.1.device = d ∧ e.1.host = h) := by
  induction l with
  | nil => simp [infoPairs]
  | cons e rest ih =>
    rw [infoPairs_cons]
    by_cases hc : e.1.device = d ∧ e.1.host = h
    · rw [if_pos hc]
      simp only [List.cons_append, List.nil_append]
      constructor
      · intro hfalse
        exact absurd hfalse (by simp)
      · intro hall
        exact absurd hc (hall e (List.mem_cons_self e rest))
    · rw [if_neg hc, List.nil_append, ih]
      constructor
      · intro hall
        intro e' he'
        rcases List.mem_cons.mp he' with he' | he'
        · rw [he']
          exact hc
        · exact hall e' he'
      · intro hall e' he'
        exact hall e' (List.mem_cons_of_mem _ he')

lemma infoPairs_mem_of (l : List (InfoKey × ℚ)) (d h : String) (e : InfoKey × ℚ)
    (he : e ∈ l) (hd : e.1.device = d) (hh : e.1.host = h) :
    (e.1.category, e.1.pollutant) ∈ infoPairs l d h := by
  rw [infoPairs, List.mem_filterMap]
  exact ⟨e, he, by rw [if_pos ⟨hd, hh⟩]⟩

lemma infoPairs_setAssoc_ne (k : InfoKey) (v : ℚ) (d h : String)
    (hne : ¬(k.device = d ∧ k.host = h)) :
    ∀ l : List (InfoKey × ℚ), infoPairs (setAssoc k v l) d h = infoPairs l d h := by
  intro l
  induction l with
  | nil =>
    show infoPairs [(k, v)] d h = infoPairs [] d h
    rw [infoPairs_cons, if_neg hne]
    rfl
  | cons e rest ih =>
    rw [setAssoc]
    by_cases he : e.1 = k
    · rw [if_pos he, infoPairs_cons, infoPairs_cons, he]
    · rw [if_neg he, infoPairs_cons, infoPairs_cons, ih]

lemma infoPairs_removeAssoc_ne (k : InfoKey) (d h : String)
    (hne : ¬(k.device = d ∧ k.host = h)) :
    ∀ l : List (InfoKey × ℚ), infoPairs (removeAssoc k l) d h = infoPairs l d h := by
  intro l
  induction l with
  | nil => rfl
  | cons e rest ih =>
    rw [removeAssoc, List.filter_cons]
    by_cases he : e.1 = k
    · rw [if_neg (by simp [he]), infoPairs_cons, if_neg (he ▸ hne)]
      exact ih
    · rw [removeAssoc] at ih
      rw [if_pos (by simp [he]), infoPairs_cons, infoPairs_cons, ih]

lemma infoPairs_removeAssoc_all (k : InfoKey) (d h : String) :
    ∀ l : List (InfoKey × ℚ),
      (∀ e ∈ l, e.1.device = d → e.1.host = h → e.1 = k) →
      infoPairs (removeAssoc k l) d h = [] := by
  intro l
  induction l with
  | nil => intro _; rfl
  | cons e rest ih =>
    intro hall
    rw [removeAssoc, List.filter_cons]
    by_cases he : e.1 = k
    · rw [if_neg (by simp [he])]
      exact ih fun e' he' => hall e' (List.mem_cons_of_mem _ he')
    · rw [if_pos (by simp [he]), infoPairs_cons, if_neg, List.nil_append]
      · exact ih fun e' he' => hall e' (List.mem_cons_of_mem _ he')
      · intro hc
        exact he (hall e (List.mem_cons_self e rest) hc.1 hc.2)

lemma infoPairs_setAssoc_key (k : InfoKey) (v : ℚ) (d h : String)
    (hk : k.device = d ∧ k.host = h) :
    ∀ l : List (InfoKey × ℚ),
      (∀ e ∈ l, e.1.device = d → e.1.host = h → e.1 = k) →
      (infoPairs l d h).length ≤ 1 →
      infoPairs (setAssoc k v l) d h = [(k.category, k.pollutant)] := by
  intro l
  induction l with
  | nil =>
    intro _ _
    show infoPairs [(k, v)] d h = _
    rw [infoPairs_cons, if_pos hk]
    rfl
  | cons e rest ih =>
    intro hall hlen
    rw [setAssoc]
    by_cases he : e.1 = k
    · rw [if_pos he, infoPairs_cons, if_pos hk]
      have hrest : infoPairs rest d h = [] := by
        rw [infoPairs_cons,
          if_pos (show e.1.device = d ∧ e.1.host = h by rw [he]; exact hk)] at hlen
        simp only [List.singleton_append, List.length_cons] at hlen
        exact List.length_eq_zero.mp (by omega)
      rw [hrest]
      rfl
    · rw [if_neg he, infoPairs_cons]
      by_cases hc : e.1.device = d ∧ e.1.host = h
      · exact absurd (hall e (List.mem_cons_self e rest) hc.1 hc.2) he
      · rw [if_neg hc, List.nil_append]
        refine ih (fun e' he' => hall e' (List.mem_cons_of_mem _ he')) ?_
        rw [infoPairs_cons, if_neg hc, List.nil_append] at hlen
        exact hlen

lemma updateSensorGauge_fields (device host : String) (m : MetricsState)
    (sensor_id : String) (v : ℚ) :
    (updateSensorGauge device host m sensor_id v).aqi_info = m.aqi_info ∧
    (updateSensorGauge device host m sensor_id v).previous_aqi_state
      = m.previous_aqi_state :=
  ⟨rfl, rfl⟩

lemma foldSensors_fields (device host : String) (sensors : List (String × SensorValue)) :
    ∀ m : MetricsState,
      ((sensors.foldl (fun acc s => updateSensorGauge device host acc s.1 s.2.value)
          m).aqi_info = m.aqi_info) ∧
      ((sensors.foldl (fun acc s => updateSensorGauge device host acc s.1 s.2.value)
          m).previous_aqi_state = m.previous_aqi_state) := by
  induction sensors with
  | nil => intro m; exact ⟨rfl, rfl⟩
  | cons s rest ih =>
    intro m
    rw [List.foldl_cons]
    obtain ⟨h1, h2⟩ := ih (updateSensorGauge device host m s.1 s.2.value)
    obtain ⟨g1, g2⟩ := updateSensorGauge_fields device host m s.1 s.2.value
    exact ⟨h1.trans g1, h2.trans g2⟩

/-- The central preservation step: `update_aqi` keeps the rendered `aqi_info`
labels of every device key equal to what the tracked previous state exposes. -/
lemma update_aqi_inv (device host d h : String) (result : AqiResult) (m : MetricsState)
    (hinv : infoFor m d h = stateInfo (lookupA (d, h) m.previous_aqi_state)) :
    infoFor (update_aqi device host result m) d h =
      stateInfo (lookupA (d, h) (update_aqi device host result m).previous_aqi_state) := by
  rw [infoFor] at hinv
  simp only [update_aqi, infoFor]
  by_cases hkey : (device, host) = (d, h)
  · injection hkey with hd hh
    subst hd
    subst hh
    rw [lookupA_setAssoc_self]
    rcases hprev : lookupA (device, host) m.previous_aqi_state with _ | prev
    · rw [hprev] at hinv
      have hnil : infoPairs m.aqi_info device host = [] := hinv
      dsimp only
      rw [infoPairs_setAssoc_key _ 1 device host ⟨rfl, rfl⟩ m.aqi_info
        (fun e he hed heh => absurd ⟨hed, heh⟩
          ((infoPairs_eq_nil_iff m.aqi_info device host).mp hnil e he))
        (by rw [hnil]; norm_num)]
      rfl
    · rw [hprev] at hinv
      dsimp only [stateInfo] at hinv
      dsimp only
      by_cases hch : prev.category ≠ result.category ∨
          prev.primary_pollutant ≠ result.primary_pollutant
      · rw [if_pos hch]
        have hall0 : ∀ e ∈ m.aqi_info, e.1.device = device → e.1.host = host →
            e.1 = { device := device, host := host
                    category := prev.category.as_str
                    pollutant := prev.primary_pollutant : InfoKey } := by
          rintro ⟨⟨a, b, c, p⟩, v0⟩ he hed heh
          have hmem := infoPairs_mem_of m.aqi_info device host _ he hed heh
          rw [hinv] at hmem
          simp only [List.mem_singleton, Prod.mk.injEq] at hmem
          dsimp only at hed heh hmem ⊢
          rw [hed, heh, hmem.1, hmem.2]
        have hgone := infoPairs_removeAssoc_all _ device host m.aqi_info hall0
        rw [infoPairs_setAssoc_key _ 1 device host ⟨rfl, rfl⟩ _
          (fun e he hed heh => absurd ⟨hed, heh⟩
            ((infoPairs_eq_nil_iff _ device host).mp hgone e he))
          (by rw [hgone]; norm_num)]
        rfl
      · rw [if_neg hch]
        push_neg at hch
        obtain ⟨hc1, hc2⟩ := hch
        have hsingle : infoPairs m.aqi_info device host =
            [(result.category.as_str, result.primary_pollutant)] := by
          rw [hinv, hc1, hc2]
        have hall0 : ∀ e ∈ m.aqi_info, e.1.device = device → e.1.host = host →
            e.1 = { device := device, host := host
                    category := result.category.as_str
                    pollutant := result.primary_pollutant : InfoKey } := by
          rintro ⟨⟨a, b, c, p⟩, v0⟩ he hed heh
          have hmem := infoPairs_mem_of m.aqi_info device host _ he hed heh
          rw [hsingle] at hmem
          simp only [List.mem_singleton, Prod.mk.injEq] at hmem
          dsimp only at hed heh hmem ⊢
          rw [hed, heh, hmem.1, hmem.2]
        rw [infoPairs_setAssoc_key _ 1 device host ⟨rfl, rfl⟩ _ hall0
          (by rw [hsingle]; norm_num)]
        rfl
  · have hne : ((device, host) : String × String) ≠ (d, h) := hkey
    have hdh : ¬(device = d ∧ host = h) := by
      intro hand
      exact hkey (by rw [hand.1, hand.2])
    rw [lookupA_setAssoc_ne _ _ _ _ hne]
    rw [infoPairs_setAssoc_ne _ 1 d h hdh]
    rcases hprev : lookupA (device, host) m.previous_aqi_state with _ | prev
    · dsimp only
      exact hinv
    · dsimp only
      by_cases hch : prev.category ≠ result.category ∨
          prev.primary_pollutant ≠ result.primary_pollutant
      · rw [if_pos hch, infoPairs_removeAssoc_ne _ d h hdh]
        exact hinv
      · rw [if_neg hch]
        exact hinv

lemma inv_of_fields_eq (m m' : MetricsState) (d h : String)
    (h1 : m'.aqi_info = m.aqi_info) (h2 : m'.previous_aqi_state = m.previous_aqi_state)
    (hinv : infoFor m d h = stateInfo (lookupA (d, h) m.previous_aqi_state)) :
    infoFor m' d h = stateInfo (lookupA (d, h) m'.previous_aqi_state) := by
  rw [infoFor, h1, h2]
  exact hinv

lemma update_device_inv (host : String) (status : ApolloStatus) (d h : String)
    (m : MetricsState)
    (hinv : infoFor m d h = stateInfo (lookupA (d, h) m.previous_aqi_state)) :
    infoFor (update_device host status m) d h =
      stateInfo (lookupA (d, h) (update_device host status m).previous_aqi_state) := by
  simp only [update_device]
  rcases hc : calculate_aqi (collectPm status.sensors).1 (collectPm status.sensors).2
    with _ | result
  · exact inv_of_fields_eq m _ d h
      (foldSensors_fields status.device_name host status.sensors _).1
      (foldSensors_fields status.device_name host status.sensors _).2 hinv
  · exact update_aqi_inv status.device_name host d h result _
      (inv_of_fields_eq m _ d h
        (foldSensors_fields status.device_name host status.sensors _).1
        (foldSensors_fields status.device_name host status.sensors _).2 hinv)

lemma runOps_inv (d h : String) :
    ∀ (ops : List MetricsOp) (m : MetricsState),
      infoFor m d h = stateInfo (lookupA (d, h) m.previous_aqi_state) →
      infoFor (ops.foldl applyOp m) d h =
        stateInfo (lookupA (d, h) (ops.foldl applyOp m).previous_aqi_state) := by
  intro ops
  induction ops with
  | nil => intro m hm; exact hm
  | cons op rest ih =>
    intro m hm
    rw [List.foldl_cons]
    refine ih _ ?_
    cases op with
    | updDevice host status => exact update_device_inv host status d h m hm
    | updAqi device host result => exact update_aqi_inv device host d h result m hm

lemma applyOp_prev (d h : String) (op : MetricsOp) (m : MetricsState) :
    (lookupA (d, h) ((applyOp m op).previous_aqi_state)).map pairOfState =
      (match computedPair d h op with
       | some pr => some pr
       | none => (lookupA (d, h) m.previous_aqi_state).map pairOfState) := by
  cases op with
  | updAqi device host result =>
    simp only [applyOp, update_aqi, computedPair]
    by_cases hkey : (device, host) = (d, h)
    · injection hkey with hd hh
      subst hd
      subst hh
      rw [lookupA_setAssoc_self, if_pos ⟨rfl, rfl⟩]
      rfl
    · have hne : ((device, host) : String × String) ≠ (d, h) := hkey
      rw [lookupA_setAssoc_ne _ _ _ _ hne, if_neg]
      intro hand
      exact hkey (by rw [hand.1, hand.2])
  | updDevice host status =>
    simp only [applyOp, update_device, computedPair]
    rcases hc : calculate_aqi (collectPm status.sensors).1 (collectPm status.sensors).2
      with _ | result
    · dsimp only
      rw [(foldSensors_fields status.device_name host status.sensors _).2, ite_self]
    · simp only [update_aqi]
      by_cases hkey : (status.device_name, host) = (d, h)
      · injection hkey with hd hh
        subst hd
        subst hh
        rw [lookupA_setAssoc_self, if_pos ⟨rfl, rfl⟩]
        rfl
      · have hne : ((status.device_name, host) : String × String) ≠ (d, h) := hkey
        rw [lookupA_setAssoc_ne _ _ _ _ hne,
          (foldSensors_fields status.device_name host status.sensors _).2, if_neg]
        intro hand
        exact hkey (by rw [hand.1, hand.2])

lemma prev_tracks_computed (d h : String) :
    ∀ (ops : List MetricsOp) (m : MetricsState),
      (lookupA (d, h) ((ops.foldl applyOp m).previous_aqi_state)).map pairOfState =
        lastComputedAux d h
          ((lookupA (d, h) m.previous_aqi_state).map pairOfState) ops := by
  intro ops
  induction ops with
  | nil => intro m; rfl
  | cons op rest ih =>
    intro m
    rw [List.foldl_cons, lastComputedAux, List.foldl_cons]
    have hstep := applyOp_prev d h op m
    calc (lookupA (d, h)
          ((rest.foldl applyOp (applyOp m op)).previous_aqi_state)).map pairOfState
        = lastComputedAux d h
            ((lookupA (d, h) (applyOp m op).previous_aqi_state).map pairOfState) rest :=
          ih (applyOp m op)
      _ = _ := by
          rw [hstep]
          rfl

/-- C2: after any sequence of `update_device` / `update_aqi` calls against a
fresh store, the `aqi_info` series rendered for each device key (d, h) are
exactly the (category, primary_pollutant) pair most recently computed for
that key — at most one series, never a superset; in particular, after a
device's category changes from Good to Moderate, a render contains the
Moderate series and no series labeled category Good for that device. -/
theorem info_series_is_last_computed :
    (∀ (ops : List MetricsOp) (d h : String),
      infoFor (runOps ops) d h =
        (match lastComputed ops d h with
         | some pr => [(pr.1.as_str, pr.2)]
         | none => [])) ∧
    InfoKey.mk "Test Device" "192.168.1.100" "Moderate" "PM2.5"
        ∈ renderInfoKeys (runOps opsGoodThenModerate) ∧
    (renderInfoKeys (runOps opsGoodThenModerate)).filter
        (fun k => k.device == "Test Device" && k.category == "Good") = [] := by
  refine ⟨?_, ?_, ?_⟩
  · intro ops d h
    have hinv := runOps_inv d h ops Metrics_new rfl
    have htrack := prev_tracks_computed d h ops Metrics_new
    rw [runOps, hinv]
    rw [show (lookupA (d, h) Metrics_new.previous_aqi_state).map pairOfState = none
      from rfl, ← lastComputed] at htrack
    rcases hl : lookupA (d, h) ((ops.foldl applyOp Metrics_new).previous_aqi_state)
      with _ | s
    · rw [hl] at htrack
      rw [← htrack]
      rfl
    · rw [hl] at htrack
      rw [← htrack]
      rfl
  · decide
  · decide
